import Mathlib

/-
Verification of the weekly kanban-list creator (src/main.py) against its
natural-language specification.

Embedding conventions:
* Python `datetime` values are naive local timestamps, embedded as integers
  counting microseconds since midnight of proleptic-Gregorian day 0, so that a
  timestamp `ts` lies on the date with ordinal `ts / usecPerDay` (Python's
  `date.toordinal` scale, day 1 = 0001-01-01, a Monday).
* `timedelta` arithmetic is plain integer arithmetic on that scale.
* The reference instant `datetime.now()` is an explicit input (`now`) carried in
  the creator's state, keeping every function a pure mapping.
* Remote calls go through a `Gateway` record of oracles; a run is embedded as
  the list of gateway calls it issues (its trace) together with its outcome.
  Fallible gateway operations return `Except Unit`.
-/

def usecPerSecond : Int := 1000000

def usecPerMinute : Int := 60000000

def usecPerHour : Int := 3600000000

def usecPerDay : Int := 86400000000

/-- Gregorian `date.toordinal` (proleptic, day 1 = 0001-01-01), embedded by the
standard days-from-civil computation; total over all integer inputs and equal to
Python's `_ymd2ord` on every valid date. -/
def ymd2ord (y m d : Int) : Int :=
  let y' := if m ≤ 2 then y - 1 else y
  let era := y' / 400
  let yoe := y' - era * 400
  let mp := (m + 9) % 12
  let doy := (153 * mp + 2) / 5 + d - 1
  let doe := yoe * 365 + yoe / 4 - yoe / 100 + doy
  era * 146097 + doe - 305

/-- Python `date.weekday()` of a date ordinal: Monday = 0 … Sunday = 6. -/
def weekdayOfOrdinal (o : Int) : Int := (o + 6) % 7

/-- A naive Python `datetime`, split as a calendar date plus the microseconds
elapsed since that date's midnight. -/
structure PyDateTime where
  year : Int
  month : Int
  day : Int
  usec : Int
  deriving DecidableEq

def PyDateTime.ordinal (t : PyDateTime) : Int := ymd2ord t.year t.month t.day

/-- The timestamp (microseconds on the ordinal scale) of a `PyDateTime`. -/
def PyDateTime.ts (t : PyDateTime) : Int := t.ordinal * usecPerDay + t.usec

def dateOrdinal (ts : Int) : Int := ts / usecPerDay

def pyWeekday (ts : Int) : Int := weekdayOfOrdinal (dateOrdinal ts)

def hourOf (ts : Int) : Int := (ts % usecPerDay) / usecPerHour

def minuteOf (ts : Int) : Int := ((ts % usecPerDay) % usecPerHour) / usecPerMinute

def secondOf (ts : Int) : Int :=
  (((ts % usecPerDay) % usecPerHour) % usecPerMinute) / usecPerSecond

def subsecOf (ts : Int) : Int := (ts % usecPerDay) % usecPerSecond

/-- `datetime.replace(hour=0, minute=0, second=0, microsecond=0)`. -/
def replaceMidnight (ts : Int) : Int := dateOrdinal ts * usecPerDay

/-- CPython's `_isoweek1monday`: ordinal of the Monday starting ISO week 1 of
`year`. -/
def isoweek1monday (year : Int) : Int :=
  let firstday := ymd2ord year 1 1
  let firstweekday := (firstday + 6) % 7
  let week1monday := firstday - firstweekday
  if firstweekday > 3 then week1monday + 7 else week1monday

/-- CPython's `date.isocalendar()` restricted to its first two components:
the ISO year and ISO week number of the date `y-m-d`. -/
def isocalendar (y m d : Int) : Int × Int :=
  let today := ymd2ord y m d
  let week := (today - isoweek1monday y) / 7
  if week < 0 then
    (y - 1, (today - isoweek1monday (y - 1)) / 7 + 1)
  else if week ≥ 52 ∧ today ≥ isoweek1monday (y + 1) then
    (y + 1, 1)
  else
    (y, week + 1)

/-- Character-level lower-casing of a string, the embedding of Python's
`str.lower()` on the ASCII day names this program compares. -/
def strLower (s : String) : String := String.mk (s.data.map Char.toLower)

-- Sanity anchors for the calendar embedding.
example : ymd2ord 1 1 1 = 1 := by decide

example : ymd2ord 2025 1 4 = 739255 := by decide

example : weekdayOfOrdinal (ymd2ord 2025 1 4) = 5 := by decide

example : isocalendar 2025 1 26 = (2025, 4) := by decide

example : isocalendar 2025 12 29 = (2026, 1) := by decide

/-- Modelled from the spec: src/main.py has no week-start convention parameter;
the spec (§3 WeekStartDay) and the repository's tests (`TestWeekStartDay`)
describe a `start_day` value in monday/sunday/saturday, validated at
orchestrator construction. This enum is the post-validation value. -/
inductive StartDay
  | monday
  | sunday
  | saturday
  deriving DecidableEq

/-- The `DAYS_OF_WEEK` index of a convention's start weekday
(monday = 0, sunday = 6, saturday = 5). -/
def StartDay.dayIndex : StartDay → Int
  | StartDay.monday => 0
  | StartDay.sunday => 6
  | StartDay.saturday => 5

/-- Modelled from the spec: the convention's fixed weekday offset from the
Monday-based ISO anchor (§4.1: sunday = 6 days after Monday, saturday = 5). -/
def StartDay.shift : StartDay → Int
  | StartDay.monday => 0
  | StartDay.sunday => 6
  | StartDay.saturday => 5

/-- `valid_days` from `CardTemplate.__post_init__` in src/main.py. -/
def validDays : List String :=
  ["monday", "tuesday", "wednesday", "thursday", "friday", "saturday", "sunday"]

/-- The `DAYS_OF_WEEK` mapping of `WeeklyListCreator` in src/main.py. -/
def DAYS_OF_WEEK (s : String) : Option Int :=
  if s = "monday" then some 0
  else if s = "tuesday" then some 1
  else if s = "wednesday" then some 2
  else if s = "thursday" then some 3
  else if s = "friday" then some 4
  else if s = "saturday" then some 5
  else if s = "sunday" then some 6
  else none

/-- Modelled from the spec: `ChecklistTemplate` is absent from src/main.py but
is imported and exercised by the repository's tests; per §3 it is a name plus an
ordered item list. -/
structure ChecklistTemplate where
  name : String
  items : List String
  deriving DecidableEq

/-- `CardTemplate` from src/main.py. The `checklists` field is absent from
src/main.py and is modelled from the spec (§3) and the tests. -/
structure CardTemplate where
  title : String
  day_of_week : String
  hour : Int
  minute : Int
  labels : List String
  description : String
  checklists : List ChecklistTemplate
  deriving DecidableEq

/-- `CardTemplate.__post_init__` from src/main.py: the validation run at
construction, returning the `ValueError` message on failure. -/
def CardTemplate.postInit (t : CardTemplate) : Except String Unit :=
  if validDays.contains (strLower t.day_of_week) = false then
    Except.error ("Invalid day_of_week: " ++ t.day_of_week)
  else if ¬ (0 ≤ t.hour ∧ t.hour ≤ 23) then
    Except.error "Invalid hour"
  else if ¬ (0 ≤ t.minute ∧ t.minute ≤ 59) then
    Except.error "Invalid minute"
  else
    Except.ok ()

/-- The state of `WeeklyListCreator` (src/main.py) after construction, plus the
reference instant `now` standing for the `datetime.now()` calls, plus the
spec-modelled `start_day` convention (absent from src/main.py). -/
structure WeeklyListCreator where
  dry_run : Bool
  position : String
  week_number : Option Int
  start_day : StartDay
  now : PyDateTime
  deriving DecidableEq

/-- `get_current_week_number` from src/main.py returns
`datetime.now().isocalendar()[1]`. The sunday/saturday cases are modelled from
the spec (§4.1): a date on or after the convention's start weekday within its
ISO week belongs to the next numeric week, an earlier date keeps the ISO week
number; this matches the repository's tests (`test_sunday_start_week_number`,
`test_saturday_start_week_number`). -/
def get_current_week_number (st : WeeklyListCreator) : Int :=
  let w := (isocalendar st.now.year st.now.month st.now.day).2
  match st.start_day with
  | StartDay.monday => w
  | StartDay.sunday => if weekdayOfOrdinal st.now.ordinal ≥ 6 then w + 1 else w
  | StartDay.saturday => if weekdayOfOrdinal st.now.ordinal ≥ 5 then w + 1 else w

/-- `get_week_start` from src/main.py: Jan 4 of `now`'s ISO year anchors ISO
week 1; its Monday is `jan4 - jan4.weekday()` days; the target week start is
`week1_monday + 7*(week_number - 1)` days, with time-of-day zeroed via
`.replace`. The `anchor` shift for non-Monday conventions is modelled from the
spec (§4.1): the Monday-based anchor is moved forward by the convention's fixed
offset. With `week_number = none` the current week number is used. -/
def get_week_start (st : WeeklyListCreator) (week_number : Option Int) : Int :=
  let current_year := (isocalendar st.now.year st.now.month st.now.day).1
  let wn : Int :=
    match week_number with
    | none => get_current_week_number st
    | some k => k
  let jan4 : Int := usecPerDay * ymd2ord current_year 1 4
  let jan4_weekday := pyWeekday jan4
  let week1_monday := jan4 - usecPerDay * jan4_weekday
  let anchor := week1_monday + usecPerDay * st.start_day.shift
  let target := anchor + usecPerDay * (7 * (wn - 1))
  replaceMidnight target

/-- The day offset used by `calculate_due_date`: src/main.py uses
`DAYS_OF_WEEK[day_of_week.lower()]` directly (a Monday-based position); the
rebasing on the convention's start weekday is modelled from the spec (§4.1) and
the tests, and coincides with the source for the monday convention. -/
def day_offset_code (day_of_week : String) (sd : StartDay) : Int :=
  ((DAYS_OF_WEEK (strLower day_of_week)).getD 0 - sd.dayIndex) % 7

/-- `calculate_due_date` from src/main.py:
`get_week_start(self.week_number) + timedelta(days=day_offset, hours=hour,
minutes=minute)`. -/
def calculate_due_date (st : WeeklyListCreator) (day_of_week : String)
    (hour : Int) (minute : Int) : Int :=
  let week_start := get_week_start st st.week_number
  week_start + day_offset_code day_of_week st.start_day * usecPerDay
    + hour * usecPerHour + minute * usecPerMinute

/-- `resolve_label_ids` from src/main.py: walk the names in order, appending the
board's identifier when the name is present and skipping it (with a warning log)
otherwise. The board's name-to-identifier mapping is embedded as a partial
function. -/
def resolve_label_ids (label_names : List String)
    (board_labels : String → Option String) : List String :=
  label_names.foldl
    (fun label_ids name =>
      match board_labels name with
      | some i => label_ids ++ [i]
      | none => label_ids)
    []

-- Sanity anchors for the week machinery.
example :
    get_current_week_number ⟨false, "top", none, StartDay.monday, ⟨2025, 1, 26, 0⟩⟩ = 4 := by
  decide

example :
    get_week_start ⟨false, "top", none, StartDay.monday, ⟨2025, 1, 26, 0⟩⟩ (some 5)
      = usecPerDay * ymd2ord 2025 1 27 := by
  decide

example :
    (CardTemplate.postInit ⟨"Test", "MonDay", 10, 30, [], "", []⟩).isOk = true := by
  decide

example :
    (CardTemplate.postInit ⟨"Test", "notaday", 10, 0, [], "", []⟩).isOk = false := by
  decide

/-- A gateway call, as observed on the remote side. Identifiers appearing in
calls are the opaque tokens previously returned by the gateway. -/
inductive GCall
  | listExistsQ (name : String)
  | createList (name : String) (position : String)
  | getBoardLabels
  | createCard (listId : String) (title : String) (due : Int)
      (labelIds : List String) (description : String)
  | createChecklist (cardId : String) (name : String)
  | addChecklistItem (checklistId : String) (text : String)
  deriving DecidableEq

/-- Whether a gateway call mutates the board. -/
def GCall.isMutating : GCall → Bool
  | GCall.listExistsQ _ => false
  | GCall.getBoardLabels => false
  | _ => true

/-- The board gateway consumed by the orchestrator, embedded as deterministic
oracles; fallible operations return `Except Unit` (an error stands for a
`RemoteOperationFailed` raise after the transport's retries). `create_checklist`
and `add_checklist_item` are absent from src/main.py and are modelled from the
spec (§6) and the tests. -/
structure Gateway where
  listExists : String → Bool
  createList : String → String → Except Unit String
  getBoardLabels : Except Unit (String → Option String)
  createCard : String → String → Int → List String → String → Except Unit String
  createChecklist : String → String → Except Unit String
  addChecklistItem : String → String → Except Unit String

/-- Outcome of one orchestrator run. -/
inductive Outcome
  | skipped
  | preview (listName : String) (position : String) (cardsReport : List (String × Int))
  | created (count : Nat)
  | failed
  deriving DecidableEq

/-- Whether an outcome is a successful termination (no exception escaped). -/
def Outcome.isSuccess : Outcome → Bool
  | Outcome.failed => false
  | _ => true

/-- One orchestrator run: the gateway calls issued, in order, and the outcome. -/
structure RunResult where
  trace : List GCall
  outcome : Outcome
  deriving DecidableEq

/-- Modelled from the spec: appending one checklist's items in order
(`add_checklist_item` per item), halting on the first failure; absent from
src/main.py, described by §4.3 step 7 and the tests. -/
def addItems (g : Gateway) (clId : String) : List String → List GCall × Except Unit Unit
  | [] => ([], Except.ok ())
  | it :: rest =>
    match g.addChecklistItem clId it with
    | Except.error e => ([GCall.addChecklistItem clId it], Except.error e)
    | Except.ok _ =>
      let rr := addItems g clId rest
      (GCall.addChecklistItem clId it :: rr.1, rr.2)

/-- Modelled from the spec: creating one card's checklists in order, each
followed by its items; absent from src/main.py, described by §4.3 step 7 and the
tests. -/
def processChecklists (g : Gateway) (cardId : String) :
    List ChecklistTemplate → List GCall × Except Unit Unit
  | [] => ([], Except.ok ())
  | cl :: rest =>
    match g.createChecklist cardId cl.name with
    | Except.error e => ([GCall.createChecklist cardId cl.name], Except.error e)
    | Except.ok clId =>
      let ri := addItems g clId cl.items
      match ri.2 with
      | Except.error e => (GCall.createChecklist cardId cl.name :: ri.1, Except.error e)
      | Except.ok _ =>
        let rr := processChecklists g cardId rest
        (GCall.createChecklist cardId cl.name :: ri.1 ++ rr.1, rr.2)

/-- One iteration of the card-creation loop of `create_weekly_list`
(src/main.py): compute the due date, resolve labels, create the card; the
checklist provisioning afterwards is modelled from the spec (§4.3 step 7). -/
def processCard (g : Gateway) (st : WeeklyListCreator) (listId : String)
    (board_labels : String → Option String) (c : CardTemplate) :
    List GCall × Except Unit Unit :=
  let due := calculate_due_date st c.day_of_week c.hour c.minute
  let lids := resolve_label_ids c.labels board_labels
  match g.createCard listId c.title due lids c.description with
  | Except.error e => ([GCall.createCard listId c.title due lids c.description], Except.error e)
  | Except.ok cardId =>
    let r := processChecklists g cardId c.checklists
    (GCall.createCard listId c.title due lids c.description :: r.1, r.2)

/-- The card-creation loop of `create_weekly_list` (src/main.py), in template
order, halting at the first failure. -/
def createCards (g : Gateway) (st : WeeklyListCreator) (listId : String)
    (board_labels : String → Option String) :
    List CardTemplate → List GCall × Except Unit Unit
  | [] => ([], Except.ok ())
  | c :: rest =>
    let pc := processCard g st listId board_labels c
    match pc.2 with
    | Except.error e => (pc.1, Except.error e)
    | Except.ok _ =>
      let rr := createCards g st listId board_labels rest
      (pc.1 ++ rr.1, rr.2)

/-- The week number used for the list name: Python's
`self.week_number if self.week_number else self.get_current_week_number()`,
where both `None` and `0` are falsy. -/
def listWeek (st : WeeklyListCreator) : Int :=
  match st.week_number with
  | some k => if k = 0 then get_current_week_number st else k
  | none => get_current_week_number st

/-- Python's `f"Todo w{week_number:02d}"` number formatting: decimal rendering
left-padded with `0` to width 2. -/
def pad2 (n : Int) : String :=
  let s := toString n
  if s.length < 2 then "0" ++ s else s

/-- The canonical list name computed by `create_weekly_list` (src/main.py):
`f"Todo w{week_number:02d}"`. -/
def list_name_of (st : WeeklyListCreator) : String := "Todo w" ++ pad2 (listWeek st)

/-- `create_weekly_list` from src/main.py: duplicate check (skipped in dry-run
mode, where the short-circuit also skips the `list_exists` query), dry-run
preview report, then list creation, one label snapshot, and the card loop. The
per-card checklist provisioning inside the loop is modelled from the spec
(§4.3 step 7). -/
def create_weekly_list (g : Gateway) (st : WeeklyListCreator)
    (cards : List CardTemplate) : RunResult :=
  let ln := list_name_of st
  if st.dry_run = false ∧ g.listExists ln = true then
    ⟨[GCall.listExistsQ ln], Outcome.skipped⟩
  else if st.dry_run then
    ⟨[], Outcome.preview ln st.position
      (cards.map fun c => (c.title, calculate_due_date st c.day_of_week c.hour c.minute))⟩
  else
    match g.createList ln st.position with
    | Except.error _ =>
      ⟨[GCall.listExistsQ ln, GCall.createList ln st.position], Outcome.failed⟩
    | Except.ok listId =>
      match g.getBoardLabels with
      | Except.error _ =>
        ⟨[GCall.listExistsQ ln, GCall.createList ln st.position, GCall.getBoardLabels],
          Outcome.failed⟩
      | Except.ok board_labels =>
        let r := createCards g st listId board_labels cards
        ⟨GCall.listExistsQ ln :: GCall.createList ln st.position :: GCall.getBoardLabels :: r.1,
          match r.2 with
          | Except.ok _ => Outcome.created cards.length
          | Except.error _ => Outcome.failed⟩

/-- Spec-side formula (§4.1, monday convention): the Monday of ISO week N of
`referenceNow`'s ISO year, at 00:00:00, as
`(Jan4 - weekday(Jan4)) + 7*(N-1)` days. -/
def weekStartSpecMonday (N : Int) (now : PyDateTime) : Int :=
  let isoy := (isocalendar now.year now.month now.day).1
  let jan4 := ymd2ord isoy 1 4
  usecPerDay * (jan4 - weekdayOfOrdinal jan4 + 7 * (N - 1))

/-- Spec-side (§4.1): the seven weekday names listed in convention order,
starting at the convention's start weekday. -/
def weekdayNamesFrom : StartDay → List String
  | StartDay.monday =>
    ["monday", "tuesday", "wednesday", "thursday", "friday", "saturday", "sunday"]
  | StartDay.sunday =>
    ["sunday", "monday", "tuesday", "wednesday", "thursday", "friday", "saturday"]
  | StartDay.saturday =>
    ["saturday", "sunday", "monday", "tuesday", "wednesday", "thursday", "friday"]

/-- Spec-side (§4.1): the weekday's zero-based position counting forward from
the convention's start weekday. -/
def dayOffsetSpec (d : String) (sd : StartDay) : Int :=
  (((weekdayNamesFrom sd).indexOf (strLower d) : Nat) : Int)

lemma dateOrdinal_mul (x : Int) : dateOrdinal (usecPerDay * x) = x := by
  simp only [dateOrdinal, usecPerDay]
  omega

lemma replaceMidnight_mul (x : Int) :
    replaceMidnight (usecPerDay * x) = usecPerDay * x := by
  simp only [replaceMidnight, dateOrdinal_mul]
  ring

lemma pyWeekday_mul (x : Int) : pyWeekday (usecPerDay * x) = weekdayOfOrdinal x := by
  simp only [pyWeekday, dateOrdinal_mul]

lemma mod_day_mul (x : Int) : (usecPerDay * x) % usecPerDay = 0 :=
  Int.mul_emod_right _ _

lemma hourOf_mul (x : Int) : hourOf (usecPerDay * x) = 0 := by
  simp [hourOf, mod_day_mul]

lemma minuteOf_mul (x : Int) : minuteOf (usecPerDay * x) = 0 := by
  simp [minuteOf, mod_day_mul]

lemma secondOf_mul (x : Int) : secondOf (usecPerDay * x) = 0 := by
  simp [secondOf, mod_day_mul]

lemma subsecOf_mul (x : Int) : subsecOf (usecPerDay * x) = 0 := by
  simp [subsecOf, mod_day_mul]

lemma weekday_of_anchor (j4 k s : Int) (hs : 0 ≤ s) (hs7 : s < 7) :
    weekdayOfOrdinal (j4 - weekdayOfOrdinal j4 + s + 7 * k) = s := by
  simp only [weekdayOfOrdinal]
  have h : j4 - (j4 + 6) % 7 + s + 7 * k + 6 = 7 * ((j4 + 6) / 7 + k) + s := by
    omega
  rw [h]
  omega

lemma get_week_start_closed (dry : Bool) (pos : String) (w : Option Int)
    (sd : StartDay) (now : PyDateTime) (N : Int) :
    get_week_start ⟨dry, pos, w, sd, now⟩ (some N) =
      usecPerDay * (ymd2ord (isocalendar now.year now.month now.day).1 1 4
        - weekdayOfOrdinal (ymd2ord (isocalendar now.year now.month now.day).1 1 4)
        + sd.shift + 7 * (N - 1)) := by
  simp only [get_week_start, pyWeekday_mul]
  have h : usecPerDay * ymd2ord (isocalendar now.year now.month now.day).1 1 4
        - usecPerDay * weekdayOfOrdinal (ymd2ord (isocalendar now.year now.month now.day).1 1 4)
        + usecPerDay * sd.shift + usecPerDay * (7 * (N - 1))
      = usecPerDay * (ymd2ord (isocalendar now.year now.month now.day).1 1 4
        - weekdayOfOrdinal (ymd2ord (isocalendar now.year now.month now.day).1 1 4)
        + sd.shift + 7 * (N - 1)) := by
    ring
  rw [h, replaceMidnight_mul]

lemma day_offset_code_eq_spec (d : String) (sd : StartDay)
    (hd : strLower d ∈ validDays) : day_offset_code d sd = dayOffsetSpec d sd := by
  simp only [validDays, List.mem_cons, List.mem_singleton, List.not_mem_nil, or_false] at hd
  rcases hd with h' | h' | h' | h' | h' | h' | h' <;>
    cases sd <;>
      simp [day_offset_code, dayOffsetSpec, weekdayNamesFrom, DAYS_OF_WEEK,
        StartDay.dayIndex, h']

/-- C2: for every valid week number, convention, canonical weekday (compared
case-insensitively), hour in [0,23] and minute in [0,59], the computed due date
is the convention's week start plus the weekday's zero-based position counting
forward from the convention's start weekday, in days, plus the hour and minute;
for the monday convention the week start is the spec's ISO formula
`(Jan4 of referenceNow's ISO year - weekday(Jan4)) + 7*(N-1)` days at
00:00:00. -/
theorem calculate_due_date_matches_spec (dry : Bool) (pos : String)
    (sd : StartDay) (N : Int) (now : PyDateTime) (d : String) (h m : Int)
    (hN : 1 ≤ N ∧ N ≤ 53) (hd : strLower d ∈ validDays)
    (hh : 0 ≤ h ∧ h ≤ 23) (hm : 0 ≤ m ∧ m ≤ 59) :
    calculate_due_date ⟨dry, pos, some N, sd, now⟩ d h m
        = get_week_start ⟨dry, pos, some N, sd, now⟩ (some N)
          + dayOffsetSpec d sd * usecPerDay + h * usecPerHour + m * usecPerMinute
      ∧ (sd = StartDay.monday →
          get_week_start ⟨dry, pos, some N, sd, now⟩ (some N) = weekStartSpecMonday N now) := by
  constructor
  · have hcode : calculate_due_date ⟨dry, pos, some N, sd, now⟩ d h m
        = get_week_start ⟨dry, pos, some N, sd, now⟩ (some N)
          + day_offset_code d sd * usecPerDay + h * usecPerHour + m * usecPerMinute := rfl
    rw [hcode, day_offset_code_eq_spec d sd hd]
  · intro hsd
    subst hsd
    rw [get_week_start_closed]
    simp only [StartDay.shift, weekStartSpecMonday]
    ring

/-- C2 witness: the spec's own concrete scenario — saturday convention, week 5,
a card on sunday at 10:00. -/
theorem calculate_due_date_matches_spec_witness :
    calculate_due_date ⟨false, "top", some 5, StartDay.saturday, ⟨2025, 1, 26, 0⟩⟩ "SUNDAY" 10 0
        = get_week_start ⟨false, "top", some 5, StartDay.saturday, ⟨2025, 1, 26, 0⟩⟩ (some 5)
          + dayOffsetSpec "SUNDAY" StartDay.saturday * usecPerDay
          + 10 * usecPerHour + 0 * usecPerMinute
      ∧ (StartDay.saturday = StartDay.monday →
          get_week_start ⟨false, "top", some 5, StartDay.saturday, ⟨2025, 1, 26, 0⟩⟩ (some 5)
            = weekStartSpecMonday 5 ⟨2025, 1, 26, 0⟩) :=
  calculate_due_date_matches_spec false "top" StartDay.saturday 5 ⟨2025, 1, 26, 0⟩
    "SUNDAY" 10 0 (by decide) (by decide) (by decide) (by decide)

/-- C3: for every convention and valid week number, the week start falls on the
convention's configured start weekday with zero hour, minute, second and
sub-second components, and for the sunday/saturday conventions it is the
Monday-based ISO anchor shifted forward by 6 respectively 5 days with the same
`7*(N-1)`-day step. -/
theorem get_week_start_convention (dry : Bool) (pos : String) (sd : StartDay)
    (N : Int) (now : PyDateTime) (hN : 1 ≤ N ∧ N ≤ 53) :
    pyWeekday (get_week_start ⟨dry, pos, some N, sd, now⟩ (some N)) = sd.dayIndex
      ∧ hourOf (get_week_start ⟨dry, pos, some N, sd, now⟩ (some N)) = 0
      ∧ minuteOf (get_week_start ⟨dry, pos, some N, sd, now⟩ (some N)) = 0
      ∧ secondOf (get_week_start ⟨dry, pos, some N, sd, now⟩ (some N)) = 0
      ∧ subsecOf (get_week_start ⟨dry, pos, some N, sd, now⟩ (some N)) = 0
      ∧ (sd = StartDay.sunday →
          get_week_start ⟨dry, pos, some N, sd, now⟩ (some N)
            = weekStartSpecMonday N now + 6 * usecPerDay)
      ∧ (sd = StartDay.saturday →
          get_week_start ⟨dry, pos, some N, sd, now⟩ (some N)
            = weekStartSpecMonday N now + 5 * usecPerDay) := by
  rw [get_week_start_closed]
  refine ⟨?_, hourOf_mul _, minuteOf_mul _, secondOf_mul _, subsecOf_mul _, ?_, ?_⟩
  · rw [pyWeekday_mul]
    cases sd <;>
      simp only [StartDay.shift, StartDay.dayIndex] <;>
      exact weekday_of_anchor _ (N - 1) _ (by decide) (by decide)
  · intro hsd
    subst hsd
    simp only [StartDay.shift, weekStartSpecMonday]
    ring
  · intro hsd
    subst hsd
    simp only [StartDay.shift, weekStartSpecMonday]
    ring

/-- C3 witness: saturday convention, week 5, reference date 2025-01-26. -/
theorem get_week_start_convention_witness :
    pyWeekday (get_week_start ⟨false, "top", some 5, StartDay.saturday, ⟨2025, 1, 26, 0⟩⟩ (some 5))
        = StartDay.saturday.dayIndex
      ∧ hourOf (get_week_start ⟨false, "top", some 5, StartDay.saturday, ⟨2025, 1, 26, 0⟩⟩ (some 5)) = 0
      ∧ minuteOf (get_week_start ⟨false, "top", some 5, StartDay.saturday, ⟨2025, 1, 26, 0⟩⟩ (some 5)) = 0
      ∧ secondOf (get_week_start ⟨false, "top", some 5, StartDay.saturday, ⟨2025, 1, 26, 0⟩⟩ (some 5)) = 0
      ∧ subsecOf (get_week_start ⟨false, "top", some 5, StartDay.saturday, ⟨2025, 1, 26, 0⟩⟩ (some 5)) = 0
      ∧ (StartDay.saturday = StartDay.sunday →
          get_week_start ⟨false, "top", some 5, StartDay.saturday, ⟨2025, 1, 26, 0⟩⟩ (some 5)
            = weekStartSpecMonday 5 ⟨2025, 1, 26, 0⟩ + 6 * usecPerDay)
      ∧ (StartDay.saturday = StartDay.saturday →
          get_week_start ⟨false, "top", some 5, StartDay.saturday, ⟨2025, 1, 26, 0⟩⟩ (some 5)
            = weekStartSpecMonday 5 ⟨2025, 1, 26, 0⟩ + 5 * usecPerDay) :=
  get_week_start_convention false "top" StartDay.saturday 5 ⟨2025, 1, 26, 0⟩ (by decide)

/-- C4: under the monday convention the current week number is the standard ISO
week number of the reference instant, for every reference date; and on the
spec's concrete scenarios — 2025-01-26 (a Sunday) gives 4 under monday and 5
under sunday, 2025-01-25 (a Saturday) gives 5 under saturday. -/
theorem get_current_week_number_spec :
    (∀ (dry : Bool) (pos : String) (wn : Option Int) (now : PyDateTime),
        get_current_week_number ⟨dry, pos, wn, StartDay.monday, now⟩
          = (isocalendar now.year now.month now.day).2)
      ∧ get_current_week_number
          ⟨false, "top", none, StartDay.monday, ⟨2025, 1, 26, 43200000000⟩⟩ = 4
      ∧ get_current_week_number
          ⟨false, "top", none, StartDay.sunday, ⟨2025, 1, 26, 43200000000⟩⟩ = 5
      ∧ get_current_week_number
          ⟨false, "top", none, StartDay.saturday, ⟨2025, 1, 25, 43200000000⟩⟩ = 5 :=
  ⟨fun _ _ _ _ => rfl, by decide, by decide, by decide⟩

lemma resolve_foldl (board_labels : String → Option String)
    (names : List String) (acc : List String) :
    names.foldl
        (fun label_ids name =>
          match board_labels name with
          | some i => label_ids ++ [i]
          | none => label_ids)
        acc
      = acc ++ names.filterMap board_labels := by
  induction names generalizing acc with
  | nil => simp
  | cons n rest ih =>
    cases h : board_labels n with
    | some i => simp [h, ih, List.filterMap_cons]
    | none => simp [h, ih, List.filterMap_cons]

/-- C9: label resolution is total and order-preserving — it returns exactly the
identifiers of the names present in the mapping, in input order with absent
names omitted (`List.filterMap`), and both the empty name list and the empty
mapping yield the empty list. -/
theorem resolve_label_ids_spec :
    (∀ (names : List String) (board_labels : String → Option String),
        resolve_label_ids names board_labels = names.filterMap board_labels)
      ∧ (∀ board_labels : String → Option String, resolve_label_ids [] board_labels = [])
      ∧ (∀ names : List String, resolve_label_ids names (fun _ => none) = []) := by
  have hmain : ∀ (names : List String) (board_labels : String → Option String),
      resolve_label_ids names board_labels = names.filterMap board_labels := by
    intro names board_labels
    simpa using resolve_foldl board_labels names []
  refine ⟨hmain, fun board_labels => rfl, fun names => ?_⟩
  rw [hmain]
  simp

/-- C7 counterexample: a `CardTemplate` with an empty title and otherwise valid
fields is accepted by `__post_init__`, refuting the claim that construction
fails when the title is empty. -/
theorem card_template_empty_title_accepted :
    (⟨"", "monday", 10, 0, [], "", []⟩ : CardTemplate).title = ""
      ∧ (CardTemplate.postInit ⟨"", "monday", 10, 0, [], "", []⟩).isOk = true :=
  ⟨rfl, by decide⟩

/-- C7 (amended): `CardTemplate` construction fails if and only if the weekday
is not one of the seven canonical day names compared case-insensitively, the
hour is outside [0,23], or the minute is outside [0,59]; the title is not
validated, and a template satisfying these constraints is always accepted. -/
theorem card_template_validation_iff (t : CardTemplate) :
    (CardTemplate.postInit t).isOk = false ↔
      (strLower t.day_of_week ∉ validDays
        ∨ ¬ (0 ≤ t.hour ∧ t.hour ≤ 23)
        ∨ ¬ (0 ≤ t.minute ∧ t.minute ≤ 59)) := by
  unfold CardTemplate.postInit
  split_ifs with h1 h2 h3 <;>
    simp_all [Except.isOk, Except.toBool]

/-- C1: in non-preview mode, when the gateway reports a list with the computed
canonical name as already present, the run ends with the skipped outcome and
its entire trace is the single duplicate-check query — zero further gateway
calls, in particular no `createList`/`createCard`, and the duplicate check
precedes any mutating call. -/
theorem duplicate_run_skipped (g : Gateway) (st : WeeklyListCreator)
    (cards : List CardTemplate) (hdry : st.dry_run = false)
    (hdup : g.listExists (list_name_of st) = true) :
    create_weekly_list g st cards
        = ⟨[GCall.listExistsQ (list_name_of st)], Outcome.skipped⟩
      ∧ (create_weekly_list g st cards).trace.filter GCall.isMutating = [] := by
  have h : create_weekly_list g st cards
      = ⟨[GCall.listExistsQ (list_name_of st)], Outcome.skipped⟩ := by
    unfold create_weekly_list
    simp [hdry, hdup]
  exact ⟨h, by rw [h]; rfl⟩

/-- A gateway whose duplicate check always reports the list as present. -/
def gwDup : Gateway :=
  ⟨fun _ => true, fun _ _ => Except.ok "list1", Except.ok (fun _ => none),
    fun _ _ _ _ _ => Except.ok "card1", fun _ _ => Except.ok "cl1",
    fun _ _ => Except.ok "item1"⟩

/-- A gateway with no duplicate and all operations succeeding, with one board
label named Work. -/
def gwOk : Gateway :=
  ⟨fun _ => false, fun _ _ => Except.ok "list1",
    Except.ok (fun n => if n = "Work" then some "label1" else none),
    fun _ _ _ _ _ => Except.ok "card1", fun _ _ => Except.ok "cl1",
    fun _ _ => Except.ok "item1"⟩

/-- A non-preview creator state: week 5, monday convention, reference instant
2025-01-26 00:00. -/
def stSample : WeeklyListCreator :=
  ⟨false, "top", some 5, StartDay.monday, ⟨2025, 1, 26, 0⟩⟩

/-- The same creator state in preview (dry-run) mode. -/
def stPreview : WeeklyListCreator :=
  ⟨true, "top", some 5, StartDay.monday, ⟨2025, 1, 26, 0⟩⟩

/-- A sample card template with one label and one checklist of two items. -/
def cardSample : CardTemplate :=
  ⟨"Card1", "monday", 10, 30, ["Work"], "desc", [⟨"Tasks", ["Item 1", "Item 2"]⟩]⟩

/-- C1 witness: a concrete duplicate run. -/
theorem duplicate_run_skipped_witness :
    create_weekly_list gwDup stSample [cardSample]
        = ⟨[GCall.listExistsQ (list_name_of stSample)], Outcome.skipped⟩
      ∧ (create_weekly_list gwDup stSample [cardSample]).trace.filter GCall.isMutating = [] :=
  duplicate_run_skipped gwDup stSample [cardSample] rfl rfl

/-- C5: preview mode issues no gateway call at all — in particular none of
`createList`, `createCard`, `createChecklist`, `addChecklistItem`, regardless
of the board's duplicate state — and ends successfully with a report of the
list name, insertion position, and each card's computed due timestamp. -/
theorem preview_no_side_effects (g : Gateway) (st : WeeklyListCreator)
    (cards : List CardTemplate) (hdry : st.dry_run = true) :
    create_weekly_list g st cards
        = ⟨[], Outcome.preview (list_name_of st) st.position
            (cards.map fun c => (c.title, calculate_due_date st c.day_of_week c.hour c.minute))⟩
      ∧ (create_weekly_list g st cards).trace.filter GCall.isMutating = []
      ∧ (create_weekly_list g st cards).outcome.isSuccess = true := by
  have h : create_weekly_list g st cards
      = ⟨[], Outcome.preview (list_name_of st) st.position
          (cards.map fun c => (c.title, calculate_due_date st c.day_of_week c.hour c.minute))⟩ := by
    unfold create_weekly_list
    simp [hdry]
  exact ⟨h, by rw [h]; rfl, by rw [h]; rfl⟩

/-- C5 witness: a concrete preview run against a board that even reports the
list as already present. -/
theorem preview_no_side_effects_witness :
    create_weekly_list gwDup stPreview [cardSample]
        = ⟨[], Outcome.preview (list_name_of stPreview) stPreview.position
            ([cardSample].map fun c =>
              (c.title, calculate_due_date stPreview c.day_of_week c.hour c.minute))⟩
      ∧ (create_weekly_list gwDup stPreview [cardSample]).trace.filter GCall.isMutating = []
      ∧ (create_weekly_list gwDup stPreview [cardSample]).outcome.isSuccess = true :=
  preview_no_side_effects gwDup stPreview [cardSample] rfl

/-- The identifier carried by a successful gateway reply (arbitrary default on
an error reply; only used beneath a success hypothesis). -/
def okId (e : Except Unit String) : String := (Except.toOption e).getD ""

/-- The label snapshot carried by a successful `getBoardLabels` reply. -/
def okLabels (g : Gateway) : String → Option String :=
  (Except.toOption g.getBoardLabels).getD (fun _ => none)

/-- The calls provisioning one checklist: create it under the card, then append
its items in sequence order. -/
def expectedChecklistCalls (g : Gateway) (cardId : String)
    (cl : ChecklistTemplate) : List GCall :=
  GCall.createChecklist cardId cl.name ::
    cl.items.map (GCall.addChecklistItem (okId (g.createChecklist cardId cl.name)))

/-- The calls provisioning one card: create it, then provision each of its
checklists in sequence order. -/
def expectedCardCalls (g : Gateway) (st : WeeklyListCreator) (listId : String)
    (board_labels : String → Option String) (c : CardTemplate) : List GCall :=
  let due := calculate_due_date st c.day_of_week c.hour c.minute
  let lids := resolve_label_ids c.labels board_labels
  GCall.createCard listId c.title due lids c.description ::
    (c.checklists.map (expectedChecklistCalls g
      (okId (g.createCard listId c.title due lids c.description)))).flatten

/-- All mutating gateway operations succeed. -/
def Gateway.allOk (g : Gateway) : Prop :=
  (∀ n p, (g.createList n p).isOk = true)
    ∧ g.getBoardLabels.isOk = true
    ∧ (∀ l t due ls ds, (g.createCard l t due ls ds).isOk = true)
    ∧ (∀ c n, (g.createChecklist c n).isOk = true)
    ∧ (∀ c t, (g.addChecklistItem c t).isOk = true)

lemma isOk_exists {α : Type} (e : Except Unit α) (h : e.isOk = true) :
    ∃ a, e = Except.ok a := by
  cases e with
  | error e => simp [Except.isOk, Except.toBool] at h
  | ok a => exact ⟨a, rfl⟩

lemma addItems_ok (g : Gateway) (clId : String) (items : List String)
    (hit : ∀ c t, (g.addChecklistItem c t).isOk = true) :
    addItems g clId items = (items.map (GCall.addChecklistItem clId), Except.ok ()) := by
  induction items with
  | nil => rfl
  | cons it rest ih =>
    obtain ⟨a, ha⟩ := isOk_exists _ (hit clId it)
    simp [addItems, ha, ih]

lemma processChecklists_ok (g : Gateway) (cardId : String)
    (cls : List ChecklistTemplate)
    (hcl : ∀ c n, (g.createChecklist c n).isOk = true)
    (hit : ∀ c t, (g.addChecklistItem c t).isOk = true) :
    processChecklists g cardId cls
      = ((cls.map (expectedChecklistCalls g cardId)).flatten, Except.ok ()) := by
  induction cls with
  | nil => rfl
  | cons cl rest ih =>
    obtain ⟨clId, hclId⟩ := isOk_exists _ (hcl cardId cl.name)
    simp [processChecklists, hclId, addItems_ok g clId cl.items hit, ih,
      expectedChecklistCalls, okId, Except.toOption]

lemma processCard_ok (g : Gateway) (st : WeeklyListCreator) (listId : String)
    (board_labels : String → Option String) (c : CardTemplate)
    (hcc : ∀ l t due ls ds, (g.createCard l t due ls ds).isOk = true)
    (hcl : ∀ c' n, (g.createChecklist c' n).isOk = true)
    (hit : ∀ c' t, (g.addChecklistItem c' t).isOk = true) :
    processCard g st listId board_labels c
      = (expectedCardCalls g st listId board_labels c, Except.ok ()) := by
  obtain ⟨cardId, hcard⟩ := isOk_exists _
    (hcc listId c.title (calculate_due_date st c.day_of_week c.hour c.minute)
      (resolve_label_ids c.labels board_labels) c.description)
  simp [processCard, hcard, processChecklists_ok g cardId c.checklists hcl hit,
    expectedCardCalls, okId, Except.toOption]

lemma createCards_ok (g : Gateway) (st : WeeklyListCreator) (listId : String)
    (board_labels : String → Option String) (cards : List CardTemplate)
    (hcc : ∀ l t due ls ds, (g.createCard l t due ls ds).isOk = true)
    (hcl : ∀ c' n, (g.createChecklist c' n).isOk = true)
    (hit : ∀ c' t, (g.addChecklistItem c' t).isOk = true) :
    createCards g st listId board_labels cards
      = ((cards.map (expectedCardCalls g st listId board_labels)).flatten, Except.ok ()) := by
  induction cards with
  | nil => rfl
  | cons c rest ih =>
    simp [createCards, processCard_ok g st listId board_labels c hcc hcl hit, ih]

/-- C6: in a successful non-preview run, the remote side receives, after the
duplicate check, the list creation and the label snapshot, exactly one
`createCard` per template in catalog order, each followed by its checklists in
sequence order, each checklist followed by its items in sequence order. -/
theorem creation_loop_in_catalog_order (g : Gateway) (st : WeeklyListCreator)
    (cards : List CardTemplate) (hok : g.allOk) (hdry : st.dry_run = false)
    (hdup : g.listExists (list_name_of st) = false) :
    create_weekly_list g st cards
      = ⟨GCall.listExistsQ (list_name_of st)
          :: GCall.createList (list_name_of st) st.position
          :: GCall.getBoardLabels
          :: (cards.map (expectedCardCalls g st
                (okId (g.createList (list_name_of st) st.position)) (okLabels g))).flatten,
        Outcome.created cards.length⟩ := by
  obtain ⟨hcl0, hlb0, hcc, hccl, hit⟩ := hok
  obtain ⟨L, hL⟩ := isOk_exists _ (hcl0 (list_name_of st) st.position)
  obtain ⟨lbls, hlbls⟩ := isOk_exists _ hlb0
  unfold create_weekly_list
  simp [hdry, hdup, hL, hlbls, createCards_ok g st L lbls cards hcc hccl hit,
    okId, okLabels, Except.toOption]

/-- C6 witness: one card with one label and a two-item checklist, against a
fully successful gateway. -/
theorem creation_loop_in_catalog_order_witness :
    create_weekly_list gwOk stSample [cardSample]
      = ⟨GCall.listExistsQ (list_name_of stSample)
          :: GCall.createList (list_name_of stSample) stSample.position
          :: GCall.getBoardLabels
          :: ([cardSample].map (expectedCardCalls gwOk stSample
                (okId (gwOk.createList (list_name_of stSample) stSample.position))
                (okLabels gwOk))).flatten,
        Outcome.created [cardSample].length⟩ :=
  creation_loop_in_catalog_order gwOk stSample [cardSample]
    ⟨fun _ _ => rfl, rfl, fun _ _ _ _ _ => rfl, fun _ _ => rfl, fun _ _ => rfl⟩ rfl rfl

lemma createCards_halts (g : Gateway) (st : WeeklyListCreator) (listId : String)
    (board_labels : String → Option String) (cards₁ : List CardTemplate)
    (card : CardTemplate) (cards₂ : List CardTemplate)
    (hpre : ∀ c ∈ cards₁, (processCard g st listId board_labels c).2 = Except.ok ())
    (hfail : (processCard g st listId board_labels card).2 = Except.error ()) :
    createCards g st listId board_labels (cards₁ ++ card :: cards₂)
      = ((cards₁.map fun c => (processCard g st listId board_labels c).1).flatten
          ++ (processCard g st listId board_labels card).1, Except.error ()) := by
  induction cards₁ with
  | nil => simp [createCards, hfail]
  | cons c rest ih =>
    have hc := hpre c (List.mem_cons_self c rest)
    have hrest : ∀ x ∈ rest, (processCard g st listId board_labels x).2 = Except.ok () :=
      fun x hx => hpre x (List.mem_cons_of_mem c hx)
    simp [createCards, hc, ih hrest]

/-- C8: if, after a successful duplicate check, list creation and label
snapshot, the processing of one card fails at some gateway call, the run fails
immediately: the trace consists of the duplicate check, the list creation, the
label snapshot, the complete call sequences of the earlier cards, and the
failing card's partial sequence — with no call for any later template and no
compensating call for the list or the earlier cards. -/
theorem failure_halts_creation_loop (g : Gateway) (st : WeeklyListCreator)
    (cards₁ : List CardTemplate) (card : CardTemplate) (cards₂ : List CardTemplate)
    (L : String) (board_labels : String → Option String)
    (hdry : st.dry_run = false) (hdup : g.listExists (list_name_of st) = false)
    (hcl : g.createList (list_name_of st) st.position = Except.ok L)
    (hlb : g.getBoardLabels = Except.ok board_labels)
    (hpre : ∀ c ∈ cards₁, (processCard g st L board_labels c).2 = Except.ok ())
    (hfail : (processCard g st L board_labels card).2 = Except.error ()) :
    create_weekly_list g st (cards₁ ++ card :: cards₂)
      = ⟨GCall.listExistsQ (list_name_of st)
          :: GCall.createList (list_name_of st) st.position
          :: GCall.getBoardLabels
          :: ((cards₁.map fun c => (processCard g st L board_labels c).1).flatten
              ++ (processCard g st L board_labels card).1),
        Outcome.failed⟩ := by
  unfold create_weekly_list
  simp [hdry, hdup, hcl, hlb,
    createCards_halts g st L board_labels cards₁ card cards₂ hpre hfail]

/-- A gateway that fails `createCard` exactly for the card titled FAIL. -/
def gwFailCard : Gateway :=
  ⟨fun _ => false, fun _ _ => Except.ok "list1",
    Except.ok (fun n => if n = "Work" then some "label1" else none),
    fun _ t _ _ _ => if t = "FAIL" then Except.error () else Except.ok "card1",
    fun _ _ => Except.ok "cl1", fun _ _ => Except.ok "item1"⟩

/-- A card whose creation the failing gateway rejects. -/
def cardBad : CardTemplate := ⟨"FAIL", "tuesday", 9, 0, [], "", []⟩

/-- A card placed after the failing one in the catalog. -/
def cardAfter : CardTemplate := ⟨"Card3", "friday", 8, 0, [], "", []⟩

/-- C8 witness: a three-card catalog whose middle card fails; the trace keeps
the first card's calls and stops at the failing call. -/
theorem failure_halts_creation_loop_witness :
    create_weekly_list gwFailCard stSample ([cardSample] ++ cardBad :: [cardAfter])
      = ⟨GCall.listExistsQ (list_name_of stSample)
          :: GCall.createList (list_name_of stSample) stSample.position
          :: GCall.getBoardLabels
          :: (([cardSample].map fun c =>
                (processCard gwFailCard stSample "list1"
                  (fun n => if n = "Work" then some "label1" else none) c).1).flatten
              ++ (processCard gwFailCard stSample "list1"
                  (fun n => if n = "Work" then some "label1" else none) cardBad).1),
        Outcome.failed⟩ :=
  failure_halts_creation_loop gwFailCard stSample [cardSample] cardBad [cardAfter]
    "list1" (fun n => if n = "Work" then some "label1" else none) rfl rfl rfl rfl
    (by
      intro c hc
      rw [List.mem_singleton] at hc
      subst hc
      rfl)
    rfl

/-- C10: with an explicit week number of 0, the falsy check names the list after
the current week number, while every due date is still computed from week 0 —
the week one before ISO week 1, i.e. the week-1 Monday minus 7 days — so the
list name and its cards' due dates refer to different weeks (concretely, with
reference 2025-01-26 the list is named Todo w04 while a monday card is due on
ordinal 739243, Monday 2024-12-23, four weeks before week 4's Monday 739271);
and the explicit week number is never range-validated: any nonzero value,
however out of range, is used verbatim. -/
theorem week_zero_name_due_mismatch (g : Gateway) (dry : Bool) (pos : String)
    (now : PyDateTime) (d : String) (h m : Int) (cards : List CardTemplate) :
    list_name_of ⟨dry, pos, some 0, StartDay.monday, now⟩
        = "Todo w" ++ pad2 (get_current_week_number ⟨dry, pos, some 0, StartDay.monday, now⟩)
      ∧ get_week_start ⟨dry, pos, some 0, StartDay.monday, now⟩ (some 0)
          = weekStartSpecMonday 1 now - 7 * usecPerDay
      ∧ calculate_due_date ⟨dry, pos, some 0, StartDay.monday, now⟩ d h m
          = get_week_start ⟨dry, pos, some 0, StartDay.monday, now⟩ (some 0)
            + day_offset_code d StartDay.monday * usecPerDay
            + h * usecPerHour + m * usecPerMinute
      ∧ (∀ k : Int, k ≠ 0 →
          create_weekly_list g ⟨true, pos, some k, StartDay.monday, now⟩ cards
            = ⟨[], Outcome.preview ("Todo w" ++ pad2 k) pos
                (cards.map fun c =>
                  (c.title, calculate_due_date ⟨true, pos, some k, StartDay.monday, now⟩
                    c.day_of_week c.hour c.minute))⟩)
      ∧ calculate_due_date ⟨true, "top", some 0, StartDay.monday, ⟨2025, 1, 26, 0⟩⟩ "monday" 0 0
          = 739243 * usecPerDay
      ∧ list_name_of ⟨true, "top", some 0, StartDay.monday, ⟨2025, 1, 26, 0⟩⟩ = "Todo w04"
      ∧ get_week_start ⟨true, "top", some 0, StartDay.monday, ⟨2025, 1, 26, 0⟩⟩
          (some (get_current_week_number ⟨true, "top", some 0, StartDay.monday, ⟨2025, 1, 26, 0⟩⟩))
          = 739271 * usecPerDay := by
  refine ⟨rfl, ?_, rfl, ?_, by decide, by decide, by decide⟩
  · rw [get_week_start_closed]
    simp only [weekStartSpecMonday, StartDay.shift]
    ring
  · intro k hk
    unfold create_weekly_list
    simp [list_name_of, listWeek, hk]

/-- C10 witness: an out-of-range explicit week number 99 is accepted verbatim
and drives the preview's list name. -/
theorem week_zero_name_due_mismatch_witness :
    create_weekly_list gwDup ⟨true, "top", some 99, StartDay.monday, ⟨2025, 1, 26, 0⟩⟩ []
      = ⟨[], Outcome.preview ("Todo w" ++ pad2 99) "top" []⟩ :=
  (week_zero_name_due_mismatch gwDup true "top" ⟨2025, 1, 26, 0⟩ "monday" 0 0 []).2.2.2.1
    99 (by decide)
